import Mathlib

/-!
# Verification of the AI Character Chat record store

A shallow embedding of the access-controlled record store implemented in
`src/actions/index.ts` over the tables declared in `db/tables.ts`.

Modelling conventions:
* Timestamps (`Date` values) are modelled as `Nat`.
* The authenticated identity (`context.locals.user`) is an `Option String`:
  `none` when no user is signed in, `some uid` otherwise.
* Each database table is a `List` of records; `db.insert` appends,
  `db.select().where(p)` is `List.filter`, and `db.update().set(u).where(p)`
  maps the partial update over the rows satisfying the predicate.
* `crypto.randomUUID()` and `new Date()` are nondeterministic inputs, so each
  handler takes the fresh identifier and the current time as extra arguments.
* An Astro action either returns a value or throws an `ActionError`; the store
  is left untouched by a throw.  Each handler therefore returns
  `Except ActionError α × DB`: the second component is the (possibly updated)
  database, and every error path returns the database unchanged.
* Zod input schemas are modelled by the Lean input structures themselves
  (`z.string().optional()` becomes `Option String`, etc.).  For
  `createChatMessage`, whose validation behaviour is itself under scrutiny,
  the raw pre-validation input is modelled too, together with the validation
  step that Astro runs before the handler.
-/

namespace AiCharacterChat

/-- Error codes used by `ActionError` in the handlers (plus `BAD_REQUEST`,
the code Astro attaches to a zod input-validation failure). -/
inductive ErrorCode where
  | UNAUTHORIZED
  | FORBIDDEN
  | NOT_FOUND
  | BAD_REQUEST
deriving Repr, DecidableEq

/-- `ActionError` as thrown by the handlers: a code plus a message. -/
structure ActionError where
  code : ErrorCode
  message : String
deriving Repr, DecidableEq

/-- A row of the `AiCharacters` table (`db/tables.ts`). -/
structure Character where
  id : String
  userId : Option String
  name : String
  slug : Option String
  shortDescription : Option String
  fullDescription : Option String
  systemPrompt : Option String
  speakingStyle : Option String
  domain : Option String
  avatarUrl : Option String
  isSystem : Bool
  isPublic : Bool
  createdAt : Nat
  updatedAt : Nat
deriving Repr, DecidableEq

/-- A row of the `CharacterChatSessions` table (`db/tables.ts`). -/
structure ChatSession where
  id : String
  characterId : String
  userId : String
  title : Option String
  contextSummary : Option String
  isPinned : Bool
  isArchived : Bool
  createdAt : Nat
  updatedAt : Nat
  lastMessageAt : Option Nat
deriving Repr, DecidableEq

/-- The closed set of sender roles accepted by
`z.enum(["user", "character", "system"])`. -/
inductive SenderRole where
  | user
  | character
  | system
deriving Repr, DecidableEq

/-- A row of the `CharacterChatMessages` table (`db/tables.ts`). -/
structure ChatMessage where
  id : String
  sessionId : String
  userId : Option String
  senderRole : SenderRole
  content : String
  metadataJson : Option String
  createdAt : Nat
deriving Repr, DecidableEq

/-- The whole record store: the three tables. -/
structure DB where
  characters : List Character
  sessions : List ChatSession
  messages : List ChatMessage
deriving Repr, DecidableEq

/-- The error thrown by `requireUser` when no user is signed in. -/
def unauthorizedError : ActionError :=
  ⟨.UNAUTHORIZED, "You must be signed in to perform this action."⟩

/-- The error thrown by `updateCharacter` when the character is missing or
owned by someone else. -/
def characterAccessError : ActionError :=
  ⟨.FORBIDDEN, "Character not found or you do not have access."⟩

/-- The error thrown by `updateChatSession`, `createChatMessage` and
`listChatMessages` when the session is missing or owned by someone else. -/
def sessionAccessError : ActionError :=
  ⟨.FORBIDDEN, "Session not found or you do not have access."⟩

/-- The error thrown by `createChatSession` when the character is absent. -/
def characterNotFoundError : ActionError :=
  ⟨.NOT_FOUND, "Character not found."⟩

/-- The error thrown by `createChatSession` when the character is neither
public nor system nor owned by the caller. -/
def characterForbiddenError : ActionError :=
  ⟨.FORBIDDEN, "You do not have access to this character."⟩

/-- The error Astro produces when the zod input schema rejects the input,
before the handler body runs. -/
def invalidInputError : ActionError :=
  ⟨.BAD_REQUEST, "Failed to validate: invalid input."⟩

/-- `requireUser(context)`: returns the signed-in user's id or throws
`UNAUTHORIZED`. -/
def requireUser (ctx : Option String) : Except ActionError String :=
  match ctx with
  | none => .error unauthorizedError
  | some user => .ok user

/-- `db.select().from(AiCharacters).where(eq(AiCharacters.id, id))` followed by
taking `existing[0]`. -/
def findCharacter (db : DB) (id : String) : Option Character :=
  (db.characters.filter (fun c => c.id == id)).head?

/-- `db.select().from(CharacterChatSessions).where(eq(id, sessionId))[0]`. -/
def findSession (db : DB) (id : String) : Option ChatSession :=
  (db.sessions.filter (fun s => s.id == id)).head?

/-- Input of `listCharacters` after zod parsing (`includePrivate` defaults to
`false`). -/
structure ListCharactersInput where
  includePrivate : Bool
deriving Repr, DecidableEq

/-- The drizzle `where` clause built by `listCharacters`:
`or(eq(isPublic, true), eq(isSystem, true))`, extended with
`eq(userId, userId)` when `includePrivate && userId`. -/
def listCharactersWhere (userId : Option String) (includePrivate : Bool) :
    Character → Bool :=
  let baseVisibility : Character → Bool := fun c => c.isPublic || c.isSystem
  match includePrivate, userId with
  | true, some uid => fun c => baseVisibility c || c.userId == some uid
  | _, _ => baseVisibility

/-- The `listCharacters` action.  It reads `locals.user?.id ?? null` itself
(no `requireUser`), so it succeeds without an identity. -/
def listCharacters (ctx : Option String) (input : ListCharactersInput)
    (db : DB) : Except ActionError (List Character) × DB :=
  let userId : Option String := ctx
  (.ok (db.characters.filter (listCharactersWhere userId input.includePrivate)), db)

/-- Input of `createCharacter` after zod parsing: required `name`, optional
strings, optional `isPublic`. -/
structure CreateCharacterInput where
  name : String
  slug : Option String
  shortDescription : Option String
  fullDescription : Option String
  systemPrompt : Option String
  speakingStyle : Option String
  domain : Option String
  avatarUrl : Option String
  isPublic : Option Bool
deriving Repr, DecidableEq

/-- The `createCharacter` action: requires a user, builds the record with
`isSystem := false`, `isPublic := input.isPublic ?? false`, owner = caller,
both timestamps = `now`, and inserts it. -/
def createCharacter (ctx : Option String) (input : CreateCharacterInput)
    (freshId : String) (now : Nat) (db : DB) :
    Except ActionError Character × DB :=
  match requireUser ctx with
  | .error e => (.error e, db)
  | .ok user =>
    let character : Character :=
      { id := freshId
        userId := some user
        name := input.name
        slug := input.slug
        shortDescription := input.shortDescription
        fullDescription := input.fullDescription
        systemPrompt := input.systemPrompt
        speakingStyle := input.speakingStyle
        domain := input.domain
        avatarUrl := input.avatarUrl
        isPublic := input.isPublic.getD false
        isSystem := false
        createdAt := now
        updatedAt := now }
    (.ok character, { db with characters := db.characters ++ [character] })

/-- Input of `updateCharacter` after zod parsing: the target `id` plus one
optional field per updatable column (`undefined` becomes `none`). -/
structure UpdateCharacterInput where
  id : String
  name : Option String
  slug : Option String
  shortDescription : Option String
  fullDescription : Option String
  systemPrompt : Option String
  speakingStyle : Option String
  domain : Option String
  avatarUrl : Option String
  isPublic : Option Bool
deriving Repr, DecidableEq

/-- `if (input.f !== undefined) updateData.f = input.f` for an optional
column: the new stored value is the provided one, or the old one when the
input field is absent. -/
def updOpt {α : Type} (newVal oldVal : Option α) : Option α :=
  match newVal with
  | some v => some v
  | none => oldVal

/-- The partial update object built by `updateCharacter` (always containing
`updatedAt`, plus exactly the provided fields), applied to a row by
`db.update().set(updateData)`. -/
def applyCharacterUpdate (input : UpdateCharacterInput) (now : Nat)
    (c : Character) : Character :=
  { c with
    updatedAt := now
    name := input.name.getD c.name
    slug := updOpt input.slug c.slug
    shortDescription := updOpt input.shortDescription c.shortDescription
    fullDescription := updOpt input.fullDescription c.fullDescription
    systemPrompt := updOpt input.systemPrompt c.systemPrompt
    speakingStyle := updOpt input.speakingStyle c.speakingStyle
    domain := updOpt input.domain c.domain
    avatarUrl := updOpt input.avatarUrl c.avatarUrl
    isPublic := input.isPublic.getD c.isPublic }

/-- The `updateCharacter` action: requires a user, looks the character up by
id; if it is absent or its `userId` differs from the caller it throws
`characterAccessError`; otherwise it applies the partial update to the rows
matching `and(eq(id, input.id), eq(userId, user.id))` and returns the id. -/
def updateCharacter (ctx : Option String) (input : UpdateCharacterInput)
    (now : Nat) (db : DB) : Except ActionError String × DB :=
  match requireUser ctx with
  | .error e => (.error e, db)
  | .ok user =>
    match findCharacter db input.id with
    | none => (.error characterAccessError, db)
    | some character =>
      if character.userId ≠ some user then
        (.error characterAccessError, db)
      else
        (.ok input.id,
          { db with
            characters := db.characters.map (fun c =>
              if c.id == input.id && c.userId == some user then
                applyCharacterUpdate input now c
              else c) })

/-- Input of `createChatSession` after zod parsing. -/
structure CreateChatSessionInput where
  characterId : String
  title : Option String
deriving Repr, DecidableEq

/-- The session record literal built by the `createChatSession` handler. -/
def newChatSession (user : String) (input : CreateChatSessionInput)
    (freshId : String) (now : Nat) : ChatSession :=
  { id := freshId
    characterId := input.characterId
    userId := user
    title := input.title
    contextSummary := none
    isPinned := false
    isArchived := false
    createdAt := now
    updatedAt := now
    lastMessageAt := none }

/-- The `createChatSession` action: requires a user; `NOT_FOUND` when the
character is absent; `FORBIDDEN` when it is neither public nor system nor
owned by the caller; otherwise inserts a fresh session owned by the caller. -/
def createChatSession (ctx : Option String) (input : CreateChatSessionInput)
    (freshId : String) (now : Nat) (db : DB) :
    Except ActionError ChatSession × DB :=
  match requireUser ctx with
  | .error e => (.error e, db)
  | .ok user =>
    match findCharacter db input.characterId with
    | none => (.error characterNotFoundError, db)
    | some character =>
      if character.isPublic = false ∧ character.isSystem = false ∧
          character.userId ≠ some user then
        (.error characterForbiddenError, db)
      else
        let session := newChatSession user input freshId now
        (.ok session, { db with sessions := db.sessions ++ [session] })

/-- Input of `updateChatSession` after zod parsing. -/
structure UpdateChatSessionInput where
  id : String
  title : Option String
  contextSummary : Option String
  isPinned : Option Bool
  isArchived : Option Bool
deriving Repr, DecidableEq

/-- The partial update object built by `updateChatSession` (always containing
`updatedAt`, plus exactly the provided fields), applied to a row. -/
def applySessionUpdate (input : UpdateChatSessionInput) (now : Nat)
    (s : ChatSession) : ChatSession :=
  { s with
    updatedAt := now
    title := updOpt input.title s.title
    contextSummary := updOpt input.contextSummary s.contextSummary
    isPinned := input.isPinned.getD s.isPinned
    isArchived := input.isArchived.getD s.isArchived }

/-- The `updateChatSession` action: requires a user, looks the session up by
id; if it is absent or not owned by the caller it throws
`sessionAccessError`; otherwise it applies the partial update to the rows
matching `and(eq(id, input.id), eq(userId, user.id))` and returns the id. -/
def updateChatSession (ctx : Option String) (input : UpdateChatSessionInput)
    (now : Nat) (db : DB) : Except ActionError String × DB :=
  match requireUser ctx with
  | .error e => (.error e, db)
  | .ok user =>
    match findSession db input.id with
    | none => (.error sessionAccessError, db)
    | some session =>
      if session.userId ≠ user then
        (.error sessionAccessError, db)
      else
        (.ok input.id,
          { db with
            sessions := db.sessions.map (fun s =>
              if s.id == input.id && s.userId == user then
                applySessionUpdate input now s
              else s) })

/-- Input of `listMyChatSessions` after zod parsing (`includeArchived`
defaults to `false`). -/
structure ListMyChatSessionsInput where
  includeArchived : Bool
deriving Repr, DecidableEq

/-- The drizzle `where` clause of `listMyChatSessions`:
`eq(userId, user.id)`, strengthened with `eq(isArchived, false)` unless
`includeArchived`. -/
def listMySessionsWhere (user : String) (includeArchived : Bool) :
    ChatSession → Bool :=
  if includeArchived then
    fun s => s.userId == user
  else
    fun s => s.userId == user && s.isArchived == false

/-- The `listMyChatSessions` action: requires a user and returns the caller's
sessions, excluding archived ones unless `includeArchived`. -/
def listMyChatSessions (ctx : Option String) (input : ListMyChatSessionsInput)
    (db : DB) : Except ActionError (List ChatSession) × DB :=
  match requireUser ctx with
  | .error e => (.error e, db)
  | .ok user =>
    (.ok (db.sessions.filter (listMySessionsWhere user input.includeArchived)), db)

/-- `JSON.stringify` of a metadata record, modelled over an association list
of string keys and values. -/
def jsonStringifyObj (m : List (String × String)) : String :=
  "\x7b" ++
    String.intercalate ","
      (m.map (fun kv => "\x22" ++ kv.1 ++ "\x22:\x22" ++ kv.2 ++ "\x22")) ++
  "\x7d"

/-- Input of `createChatMessage` after zod parsing: `senderRole` is one of the
closed enum, `content` is a (non-empty, by the schema) string, `metadata` an
optional record. -/
structure CreateChatMessageInput where
  sessionId : String
  senderRole : SenderRole
  content : String
  metadata : Option (List (String × String))
deriving Repr, DecidableEq

/-- The message record literal built by the `createChatMessage` handler. -/
def newChatMessage (user : String) (input : CreateChatMessageInput)
    (freshId : String) (now : Nat) : ChatMessage :=
  { id := freshId
    sessionId := input.sessionId
    userId := if input.senderRole = .user then some user else none
    senderRole := input.senderRole
    content := input.content
    metadataJson := input.metadata.map jsonStringifyObj
    createdAt := now }

/-- The partial update `set(updatedAt := now, lastMessageAt := now)` applied
by `createChatMessage` to the parent session. -/
def touchSession (now : Nat) (s : ChatSession) : ChatSession :=
  { s with updatedAt := now, lastMessageAt := some now }

/-- The `createChatMessage` handler: requires a user, checks the session
exists and is owned by the caller, inserts the message (sender identity only
for `senderRole = user`, serialized metadata or null), then updates the
parent session's `updatedAt`/`lastMessageAt` to the same `now`. -/
def createChatMessage (ctx : Option String) (input : CreateChatMessageInput)
    (freshId : String) (now : Nat) (db : DB) :
    Except ActionError ChatMessage × DB :=
  match requireUser ctx with
  | .error e => (.error e, db)
  | .ok user =>
    match findSession db input.sessionId with
    | none => (.error sessionAccessError, db)
    | some session =>
      if session.userId ≠ user then
        (.error sessionAccessError, db)
      else
        let message := newChatMessage user input freshId now
        (.ok message,
          { db with
            messages := db.messages ++ [message]
            sessions := db.sessions.map (fun s =>
              if s.id == input.sessionId && s.userId == user then
                touchSession now s
              else s) })

/-- The raw, pre-validation input of `createChatMessage`: `senderRole` is
still an arbitrary string. -/
structure RawCreateChatMessageInput where
  sessionId : String
  senderRole : String
  content : String
  metadata : Option (List (String × String))
deriving Repr, DecidableEq

/-- `z.enum(["user", "character", "system"])` on the raw sender role. -/
def parseSenderRole (s : String) : Option SenderRole :=
  if s = "user" then some .user
  else if s = "character" then some .character
  else if s = "system" then some .system
  else none

/-- The zod schema of `createChatMessage`:
`sessionId: z.string().min(1)`, `senderRole: z.enum(...)`,
`content: z.string().min(1)`.  Returns the parsed input or `none`. -/
def validateCreateChatMessage (raw : RawCreateChatMessageInput) :
    Option CreateChatMessageInput :=
  if raw.sessionId.length < 1 then none
  else if raw.content.length < 1 then none
  else
    (parseSenderRole raw.senderRole).map (fun role =>
      { sessionId := raw.sessionId
        senderRole := role
        content := raw.content
        metadata := raw.metadata })

/-- The full `createChatMessage` action as exposed by Astro: input validation
runs first (failing with `BAD_REQUEST` and touching nothing), then the
handler. -/
def createChatMessageAction (ctx : Option String)
    (raw : RawCreateChatMessageInput) (freshId : String) (now : Nat)
    (db : DB) : Except ActionError ChatMessage × DB :=
  match validateCreateChatMessage raw with
  | none => (.error invalidInputError, db)
  | some input => createChatMessage ctx input freshId now db

/-- Input of `listChatMessages` after zod parsing. -/
structure ListChatMessagesInput where
  sessionId : String
deriving Repr, DecidableEq

/-- The `listChatMessages` action: requires a user, checks the session exists
and is owned by the caller, then returns all messages of the session. -/
def listChatMessages (ctx : Option String) (input : ListChatMessagesInput)
    (db : DB) : Except ActionError (List ChatMessage) × DB :=
  match requireUser ctx with
  | .error e => (.error e, db)
  | .ok user =>
    match findSession db input.sessionId with
    | none => (.error sessionAccessError, db)
    | some session =>
      if session.userId ≠ user then
        (.error sessionAccessError, db)
      else
        (.ok (db.messages.filter (fun m => m.sessionId == input.sessionId)), db)

/-- The branch condition guarding `updateCharacter`'s error path:
`!character || character.userId !== user.id` over the looked-up row, i.e.
the target is absent or owned by someone other than the caller. -/
def characterDenied (db : DB) (id : String) (u : String) : Bool :=
  match findCharacter db id with
  | none => true
  | some c => c.userId != some u

/-- The branch condition guarding the error path of `updateChatSession`,
`createChatMessage` and `listChatMessages`:
`!session || session.userId !== user.id` over the looked-up row. -/
def sessionDenied (db : DB) (id : String) (u : String) : Bool :=
  match findSession db id with
  | none => true
  | some s => s.userId != u

/-! ## Concrete fixtures used to witness the theorems below -/

/-- A private, non-system character owned by `alice`. -/
def mentorChar : Character :=
  { id := "char-1"
    userId := some "alice"
    name := "Stoic Mentor"
    slug := some "stoic-mentor"
    shortDescription := none
    fullDescription := none
    systemPrompt := some "Be stoic."
    speakingStyle := none
    domain := none
    avatarUrl := none
    isSystem := false
    isPublic := false
    createdAt := 0
    updatedAt := 0 }

/-- A public character owned by `alice`. -/
def publicChar : Character :=
  { id := "char-2"
    userId := some "alice"
    name := "Sci-Fi Captain"
    slug := none
    shortDescription := none
    fullDescription := none
    systemPrompt := none
    speakingStyle := none
    domain := none
    avatarUrl := none
    isSystem := false
    isPublic := true
    createdAt := 0
    updatedAt := 0 }

/-- A session owned by `bob` with the public character. -/
def bobSession : ChatSession :=
  { id := "sess-1"
    characterId := "char-2"
    userId := "bob"
    title := some "Career advice"
    contextSummary := some "earlier turns"
    isPinned := false
    isArchived := false
    createdAt := 1
    updatedAt := 1
    lastMessageAt := none }

/-- A small store: two characters of `alice`, one session of `bob`. -/
def sampleDB : DB :=
  { characters := [mentorChar, publicChar]
    sessions := [bobSession]
    messages := [] }

/-! ## General lemmas about row lookup and row update -/

/-- Updating rows with a function that does not change whether a row matches
the lookup predicate commutes with taking the first matching row. -/
theorem head_filter_map_pres {α : Type} (l : List α) (p : α → Bool) (g : α → α)
    (hpres : ∀ x, p (g x) = p x) :
    ((l.map g).filter p).head? = ((l.filter p).head?).map g := by
  rw [List.filter_map]
  have hcongr : l.filter (p ∘ g) = l.filter p :=
    List.filter_congr (fun a _ => hpres a)
  rw [hcongr]
  exact List.head?_map _ _

/-- The first row matching a predicate does match it. -/
theorem head_filter_pred {α : Type} {l : List α} {p : α → Bool} {a : α}
    (h : (l.filter p).head? = some a) : p a = true :=
  (List.mem_filter.mp (List.mem_of_mem_head? (Option.mem_def.mpr h))).2

/-! ## Claims -/

/-- The visibility predicate built by `listCharacters`, characterized. -/
theorem listCharactersWhere_iff (ctx : Option String) (ip : Bool)
    (c : Character) :
    listCharactersWhere ctx ip c = true ↔
      (c.isPublic = true ∨ c.isSystem = true ∨
        (ip = true ∧ ∃ uid, ctx = some uid ∧ c.userId = some uid)) := by
  rcases ctx with _ | uid <;> cases ip <;>
    simp [listCharactersWhere, or_assoc]

/-- **C1.** For every state of the character table and every call to
`listCharacters`, a character is in the result iff it is in the table and is
public, or system, or (`includePrivate` was requested, a caller identity is
present, and the character's owner is that caller).  In particular, with
`includePrivate = false` the result never contains a character that is both
non-public and non-system. -/
theorem listCharacters_mem_iff (ctx : Option String)
    (input : ListCharactersInput) (db : DB) (c : Character) :
    (∃ items, listCharacters ctx input db = (Except.ok items, db) ∧ c ∈ items) ↔
      (c ∈ db.characters ∧
        (c.isPublic = true ∨ c.isSystem = true ∨
          (input.includePrivate = true ∧ ∃ uid, ctx = some uid ∧ c.userId = some uid))) := by
  have hrun : listCharacters ctx input db =
      (Except.ok (db.characters.filter
        (listCharactersWhere ctx input.includePrivate)), db) := rfl
  constructor
  · rintro ⟨items, heq, hmem⟩
    rw [hrun] at heq
    injection heq with h1 _
    injection h1 with h1
    rw [← h1] at hmem
    obtain ⟨hin, hpred⟩ := List.mem_filter.mp hmem
    exact ⟨hin, (listCharactersWhere_iff ctx input.includePrivate c).mp hpred⟩
  · rintro ⟨hin, hvis⟩
    refine ⟨_, hrun, List.mem_filter.mpr ⟨hin, ?_⟩⟩
    exact (listCharactersWhere_iff ctx input.includePrivate c).mpr hvis

/-- **C4.** Every character created by `createCharacter` has
`isSystem = false` whatever the input, is owned by the caller, has
`isPublic` equal to the requested value when provided and `false` otherwise,
and has equal creation and update timestamps. -/
theorem createCharacter_record_spec (u : String) (input : CreateCharacterInput)
    (freshId : String) (now : Nat) (db : DB) :
    ∃ c db2, createCharacter (some u) input freshId now db = (Except.ok c, db2) ∧
      c.isSystem = false ∧ c.userId = some u ∧
      c.isPublic = input.isPublic.getD false ∧ c.createdAt = c.updatedAt :=
  ⟨_, _, rfl, rfl, rfl, rfl, rfl⟩

/-- **C8.** `listMyChatSessions` by caller `u` returns exactly the sessions
owned by `u` when `includeArchived = true`, and exactly the non-archived
sessions owned by `u` when `includeArchived = false`; other users' sessions
are never returned. -/
theorem listMyChatSessions_mem_iff (u : String)
    (input : ListMyChatSessionsInput) (db : DB) (s : ChatSession) :
    (∃ items, listMyChatSessions (some u) input db = (Except.ok items, db) ∧
        s ∈ items) ↔
      (s ∈ db.sessions ∧ s.userId = u ∧
        (input.includeArchived = true ∨ s.isArchived = false)) := by
  cases hia : input.includeArchived <;>
    simp [listMyChatSessions, requireUser, listMySessionsWhere,
      List.mem_filter, hia, and_assoc]

/-- **C9.** Every operation except `listCharacters` fails with the
`UNAUTHORIZED` error and leaves the store untouched when no identity is
present; `listCharacters` succeeds without an identity. -/
theorem unauthenticated_ops (db : DB) :
    (∀ input freshId now, createCharacter none input freshId now db =
        (Except.error unauthorizedError, db)) ∧
    (∀ input now, updateCharacter none input now db =
        (Except.error unauthorizedError, db)) ∧
    (∀ input freshId now, createChatSession none input freshId now db =
        (Except.error unauthorizedError, db)) ∧
    (∀ input now, updateChatSession none input now db =
        (Except.error unauthorizedError, db)) ∧
    (∀ input, listMyChatSessions none input db =
        (Except.error unauthorizedError, db)) ∧
    (∀ input freshId now, createChatMessage none input freshId now db =
        (Except.error unauthorizedError, db)) ∧
    (∀ input, listChatMessages none input db =
        (Except.error unauthorizedError, db)) ∧
    (∀ input, ∃ items, listCharacters none input db = (Except.ok items, db)) :=
  ⟨fun _ _ _ => rfl, fun _ _ => rfl, fun _ _ _ => rfl, fun _ _ => rfl,
    fun _ => rfl, fun _ _ _ => rfl, fun _ => rfl, fun _ => ⟨_, rfl⟩⟩

/-- **C2.** For every authenticated caller and every owner-scoped operation
(`updateCharacter`, `updateChatSession`, `createChatMessage`,
`listChatMessages`), the observable outcome when the target row is absent and
the outcome when it exists but is owned by a different user are one and the
same fixed error response (`characterAccessError` resp. `sessionAccessError`)
with the store untouched, so the caller cannot distinguish the two cases. -/
theorem ownerScoped_error_indistinguishable (u : String) (db : DB) :
    (∀ (input : UpdateCharacterInput) (now : Nat),
      characterDenied db input.id u = true →
      updateCharacter (some u) input now db =
        (Except.error characterAccessError, db)) ∧
    (∀ (input : UpdateChatSessionInput) (now : Nat),
      sessionDenied db input.id u = true →
      updateChatSession (some u) input now db =
        (Except.error sessionAccessError, db)) ∧
    (∀ (input : CreateChatMessageInput) (freshId : String) (now : Nat),
      sessionDenied db input.sessionId u = true →
      createChatMessage (some u) input freshId now db =
        (Except.error sessionAccessError, db)) ∧
    (∀ input : ListChatMessagesInput,
      sessionDenied db input.sessionId u = true →
      listChatMessages (some u) input db =
        (Except.error sessionAccessError, db)) := by
  refine ⟨fun input now h => ?_, fun input now h => ?_,
    fun input freshId now h => ?_, fun input h => ?_⟩
  · cases hf : findCharacter db input.id with
    | none => simp [updateCharacter, requireUser, hf]
    | some c =>
      have hne : c.userId ≠ some u := by
        unfold characterDenied at h
        rw [hf] at h
        simpa using h
      simp [updateCharacter, requireUser, hf, hne]
  · cases hf : findSession db input.id with
    | none => simp [updateChatSession, requireUser, hf]
    | some s =>
      have hne : s.userId ≠ u := by
        unfold sessionDenied at h
        rw [hf] at h
        simpa using h
      simp [updateChatSession, requireUser, hf, hne]
  · cases hf : findSession db input.sessionId with
    | none => simp [createChatMessage, requireUser, hf]
    | some s =>
      have hne : s.userId ≠ u := by
        unfold sessionDenied at h
        rw [hf] at h
        simpa using h
      simp [createChatMessage, requireUser, hf, hne]
  · cases hf : findSession db input.sessionId with
    | none => simp [listChatMessages, requireUser, hf]
    | some s =>
      have hne : s.userId ≠ u := by
        unfold sessionDenied at h
        rw [hf] at h
        simpa using h
      simp [listChatMessages, requireUser, hf, hne]

/-- Witness for C2: on the sample store, caller `bob` gets the very same
error for a nonexistent character id as for `alice`'s character, and caller
`carol` gets the very same error for a nonexistent session as for `bob`'s
session, across all four owner-scoped operations. -/
theorem ownerScoped_error_indistinguishable_witness :
    updateCharacter (some "bob")
        ⟨"ghost", none, none, none, none, none, none, none, none, none⟩ 5
        sampleDB = (Except.error characterAccessError, sampleDB) ∧
    updateCharacter (some "bob")
        ⟨"char-1", none, none, none, none, none, none, none, none, none⟩ 5
        sampleDB = (Except.error characterAccessError, sampleDB) ∧
    updateChatSession (some "carol") ⟨"ghost", none, none, none, none⟩ 5
        sampleDB = (Except.error sessionAccessError, sampleDB) ∧
    updateChatSession (some "carol") ⟨"sess-1", none, none, none, none⟩ 5
        sampleDB = (Except.error sessionAccessError, sampleDB) ∧
    createChatMessage (some "carol") ⟨"sess-1", .user, "hi", none⟩ "m-1" 5
        sampleDB = (Except.error sessionAccessError, sampleDB) ∧
    listChatMessages (some "carol") ⟨"sess-1"⟩ sampleDB =
        (Except.error sessionAccessError, sampleDB) :=
  ⟨(ownerScoped_error_indistinguishable "bob" sampleDB).1 _ 5 (by decide),
    (ownerScoped_error_indistinguishable "bob" sampleDB).1 _ 5 (by decide),
    (ownerScoped_error_indistinguishable "carol" sampleDB).2.1 _ 5 (by decide),
    (ownerScoped_error_indistinguishable "carol" sampleDB).2.1 _ 5 (by decide),
    (ownerScoped_error_indistinguishable "carol" sampleDB).2.2.1 _ "m-1" 5
      (by decide),
    (ownerScoped_error_indistinguishable "carol" sampleDB).2.2.2 _ (by decide)⟩

/-- **C3.** `createChatSession` fails with `NOT_FOUND` when the character is
absent; fails with `FORBIDDEN` when it exists but is neither public, nor
system, nor owned by the caller; and otherwise succeeds, inserting a session
owned by the caller referencing that character with `isPinned = false`,
`isArchived = false`, `contextSummary = null`, `lastMessageAt = null` and
`createdAt = updatedAt = now`. -/
theorem createChatSession_cases (u : String) (input : CreateChatSessionInput)
    (freshId : String) (now : Nat) (db : DB) :
    (findCharacter db input.characterId = none →
      createChatSession (some u) input freshId now db =
        (Except.error characterNotFoundError, db)) ∧
    (∀ c, findCharacter db input.characterId = some c →
      c.isPublic = false → c.isSystem = false → c.userId ≠ some u →
      createChatSession (some u) input freshId now db =
        (Except.error characterForbiddenError, db)) ∧
    (∀ c, findCharacter db input.characterId = some c →
      (c.isPublic = true ∨ c.isSystem = true ∨ c.userId = some u) →
      ∃ s, createChatSession (some u) input freshId now db =
          (Except.ok s, { db with sessions := db.sessions ++ [s] }) ∧
        s.userId = u ∧ s.characterId = input.characterId ∧
        s.isPinned = false ∧ s.isArchived = false ∧
        s.contextSummary = none ∧ s.lastMessageAt = none ∧
        s.createdAt = now ∧ s.updatedAt = now) := by
  refine ⟨fun hf => ?_, fun c hf hpub hsys hown => ?_, fun c hf hvis => ?_⟩
  · simp [createChatSession, requireUser, hf]
  · simp [createChatSession, requireUser, hf, hpub, hsys, hown]
  · have hcond : ¬(c.isPublic = false ∧ c.isSystem = false ∧
        c.userId ≠ some u) := by
      rcases hvis with h | h | h <;> simp [h]
    refine ⟨newChatSession u input freshId now, ?_, rfl, rfl, rfl, rfl, rfl,
      rfl, rfl, rfl⟩
    simp [createChatSession, requireUser, hf, hcond]

/-- Witness for C3: on the sample store, `bob` gets `NOT_FOUND` for a ghost
id, `FORBIDDEN` for `alice`'s private character, and a correctly initialized
session for `alice`'s public character. -/
theorem createChatSession_cases_witness :
    createChatSession (some "bob") ⟨"ghost", none⟩ "sess-9" 7 sampleDB =
        (Except.error characterNotFoundError, sampleDB) ∧
    createChatSession (some "bob") ⟨"char-1", none⟩ "sess-9" 7 sampleDB =
        (Except.error characterForbiddenError, sampleDB) ∧
    (∃ s, createChatSession (some "bob") ⟨"char-2", none⟩ "sess-9" 7 sampleDB =
        (Except.ok s, { sampleDB with sessions := sampleDB.sessions ++ [s] }) ∧
      s.userId = "bob" ∧ s.characterId = "char-2" ∧
      s.isPinned = false ∧ s.isArchived = false ∧
      s.contextSummary = none ∧ s.lastMessageAt = none ∧
      s.createdAt = 7 ∧ s.updatedAt = 7) :=
  ⟨(createChatSession_cases "bob" ⟨"ghost", none⟩ "sess-9" 7 sampleDB).1
      (by decide),
    (createChatSession_cases "bob" ⟨"char-1", none⟩ "sess-9" 7 sampleDB).2.1
      mentorChar (by decide) (by decide) (by decide) (by decide),
    (createChatSession_cases "bob" ⟨"char-2", none⟩ "sess-9" 7 sampleDB).2.2
      publicChar (by decide) (Or.inl (by decide))⟩

/-- **C7.** `createChatMessage` called with empty content, or with a sender
role outside the closed set, is rejected by input validation with the
`BAD_REQUEST` error before the handler runs, and every table keeps its
previous contents — in particular the parent session keeps its `updatedAt`
and `lastMessageAt`. -/
theorem createChatMessage_validation_gate (ctx : Option String)
    (raw : RawCreateChatMessageInput) (freshId : String) (now : Nat) (db : DB)
    (h : raw.content = "" ∨ parseSenderRole raw.senderRole = none) :
    createChatMessageAction ctx raw freshId now db =
      (Except.error invalidInputError, db) := by
  have hval : validateCreateChatMessage raw = none := by
    unfold validateCreateChatMessage
    rcases h with h | h <;> simp [h]
  simp [createChatMessageAction, hval]

/-- Witness for C7: on the sample store, `bob` posting an empty message, or a
message with sender role `"alien"`, to his own session gets `BAD_REQUEST` and
the store — the session's timestamps included — is unchanged. -/
theorem createChatMessage_validation_gate_witness :
    createChatMessageAction (some "bob") ⟨"sess-1", "user", "", none⟩ "m-1" 9
        sampleDB = (Except.error invalidInputError, sampleDB) ∧
    createChatMessageAction (some "bob") ⟨"sess-1", "alien", "hi", none⟩ "m-1"
        9 sampleDB = (Except.error invalidInputError, sampleDB) :=
  ⟨createChatMessage_validation_gate (some "bob") ⟨"sess-1", "user", "", none⟩
      "m-1" 9 sampleDB (Or.inl rfl),
    createChatMessage_validation_gate (some "bob")
      ⟨"sess-1", "alien", "hi", none⟩ "m-1" 9 sampleDB (Or.inr (by decide))⟩

/-- `listChatMessages` by the owner of an existing session returns the
messages of that session. -/
theorem listChatMessages_ok (u : String) (input : ListChatMessagesInput)
    (db : DB) (s : ChatSession)
    (hfind : findSession db input.sessionId = some s) (hown : s.userId = u) :
    listChatMessages (some u) input db =
      (Except.ok (db.messages.filter (fun m => m.sessionId == input.sessionId)),
        db) := by
  simp [listChatMessages, requireUser, hfind, hown]

/-- **C5.** A successful `createChatMessage` by the session's owner stores
the caller's identity as sender exactly when `senderRole = user` (null
otherwise), stores the serialized metadata (null when absent), and updates
the parent session's `updatedAt` and `lastMessageAt` to the message's
`createdAt`; a subsequent `listChatMessages` on the session includes the
message. -/
theorem createChatMessage_success (u : String) (input : CreateChatMessageInput)
    (freshId : String) (now : Nat) (db : DB) (s : ChatSession)
    (hfind : findSession db input.sessionId = some s) (hown : s.userId = u) :
    ∃ m db2,
      createChatMessage (some u) input freshId now db = (Except.ok m, db2) ∧
      (input.senderRole = SenderRole.user → m.userId = some u) ∧
      (input.senderRole ≠ SenderRole.user → m.userId = none) ∧
      m.metadataJson = input.metadata.map jsonStringifyObj ∧
      m.createdAt = now ∧
      (∃ s2, findSession db2 input.sessionId = some s2 ∧
        s2.updatedAt = m.createdAt ∧ s2.lastMessageAt = some m.createdAt) ∧
      (∃ msgs, listChatMessages (some u) ⟨input.sessionId⟩ db2 =
          (Except.ok msgs, db2) ∧ m ∈ msgs) := by
  have hf' : (db.sessions.filter (fun x => x.id == input.sessionId)).head? =
      some s := hfind
  have hid : (s.id == input.sessionId) = true :=
    @head_filter_pred _ db.sessions (fun x => x.id == input.sessionId) s hf'
  have hpres : ∀ x : ChatSession,
      ((if x.id == input.sessionId && x.userId == u then touchSession now x
        else x).id == input.sessionId) = (x.id == input.sessionId) := by
    intro x
    cases hx : x.id == input.sessionId && x.userId == u <;>
      simp [hx, touchSession]
  have hfind2 : findSession
      { db with
        messages := db.messages ++ [newChatMessage u input freshId now]
        sessions := db.sessions.map (fun x =>
          if x.id == input.sessionId && x.userId == u then touchSession now x
          else x) } input.sessionId = some (touchSession now s) := by
    unfold findSession
    rw [head_filter_map_pres _ _ _ hpres, hf']
    have hid' : s.id = input.sessionId := by simpa using hid
    simp [hid', hown]
  refine ⟨newChatMessage u input freshId now,
    { db with
      messages := db.messages ++ [newChatMessage u input freshId now]
      sessions := db.sessions.map (fun x =>
        if x.id == input.sessionId && x.userId == u then touchSession now x
        else x) }, ?_, ?_, ?_, rfl, rfl, ?_, ?_⟩
  · simp [createChatMessage, requireUser, hfind, hown]
  · intro h
    simp [newChatMessage, h]
  · intro h
    simp [newChatMessage, h]
  · exact ⟨touchSession now s, hfind2, rfl, rfl⟩
  · refine ⟨(db.messages ++ [newChatMessage u input freshId now]).filter
        (fun m => m.sessionId == input.sessionId), ?_, ?_⟩
    · exact listChatMessages_ok u ⟨input.sessionId⟩ _ (touchSession now s)
        hfind2 (by simp [touchSession, hown])
    · refine List.mem_filter.mpr ⟨?_, by simp [newChatMessage]⟩
      exact List.mem_append_right _ (by simp)

/-- Witness for C5: `bob` posts `"hello"` as role `user` into his session on
the sample store; the stored message carries his identity and null metadata,
the session's timestamps move to the message's creation time, and the listing
contains the message. -/
theorem createChatMessage_success_witness :
    ∃ m db2,
      createChatMessage (some "bob") ⟨"sess-1", .user, "hello", none⟩ "m-1" 9
          sampleDB = (Except.ok m, db2) ∧
      ((⟨"sess-1", .user, "hello", none⟩ : CreateChatMessageInput).senderRole =
          SenderRole.user → m.userId = some "bob") ∧
      ((⟨"sess-1", .user, "hello", none⟩ : CreateChatMessageInput).senderRole ≠
          SenderRole.user → m.userId = none) ∧
      m.metadataJson = (none : Option (List (String × String))).map
        jsonStringifyObj ∧
      m.createdAt = 9 ∧
      (∃ s2, findSession db2 "sess-1" = some s2 ∧
        s2.updatedAt = m.createdAt ∧ s2.lastMessageAt = some m.createdAt) ∧
      (∃ msgs, listChatMessages (some "bob") ⟨"sess-1"⟩ db2 =
          (Except.ok msgs, db2) ∧ m ∈ msgs) :=
  createChatMessage_success "bob" ⟨"sess-1", .user, "hello", none⟩ "m-1" 9
    sampleDB bobSession (by decide) rfl

/-- **C6.** For every successful `updateCharacter` and `updateChatSession` by
the owner: each field explicitly provided in the input takes the provided
value, each field not provided keeps its previous value, `updatedAt` is
refreshed to `now`, and `isSystem` as well as the owner (and the identifier
and `createdAt`, resp. the `characterId` and `lastMessageAt` for sessions)
are never changed. -/
theorem update_handlers_frame (u : String) (now : Nat) (db : DB) :
    (∀ (input : UpdateCharacterInput) c,
      findCharacter db input.id = some c → c.userId = some u →
      ∃ db2 c2,
        updateCharacter (some u) input now db = (Except.ok input.id, db2) ∧
        findCharacter db2 input.id = some c2 ∧
        c2.updatedAt = now ∧ c2.id = c.id ∧ c2.userId = c.userId ∧
        c2.isSystem = c.isSystem ∧ c2.createdAt = c.createdAt ∧
        (∀ v, input.name = some v → c2.name = v) ∧
        (input.name = none → c2.name = c.name) ∧
        (∀ v, input.slug = some v → c2.slug = some v) ∧
        (input.slug = none → c2.slug = c.slug) ∧
        (∀ v, input.shortDescription = some v → c2.shortDescription = some v) ∧
        (input.shortDescription = none →
          c2.shortDescription = c.shortDescription) ∧
        (∀ v, input.fullDescription = some v → c2.fullDescription = some v) ∧
        (input.fullDescription = none →
          c2.fullDescription = c.fullDescription) ∧
        (∀ v, input.systemPrompt = some v → c2.systemPrompt = some v) ∧
        (input.systemPrompt = none → c2.systemPrompt = c.systemPrompt) ∧
        (∀ v, input.speakingStyle = some v → c2.speakingStyle = some v) ∧
        (input.speakingStyle = none → c2.speakingStyle = c.speakingStyle) ∧
        (∀ v, input.domain = some v → c2.domain = some v) ∧
        (input.domain = none → c2.domain = c.domain) ∧
        (∀ v, input.avatarUrl = some v → c2.avatarUrl = some v) ∧
        (input.avatarUrl = none → c2.avatarUrl = c.avatarUrl) ∧
        (∀ b, input.isPublic = some b → c2.isPublic = b) ∧
        (input.isPublic = none → c2.isPublic = c.isPublic)) ∧
    (∀ (input : UpdateChatSessionInput) s,
      findSession db input.id = some s → s.userId = u →
      ∃ db2 s2,
        updateChatSession (some u) input now db = (Except.ok input.id, db2) ∧
        findSession db2 input.id = some s2 ∧
        s2.updatedAt = now ∧ s2.id = s.id ∧ s2.userId = s.userId ∧
        s2.characterId = s.characterId ∧ s2.createdAt = s.createdAt ∧
        s2.lastMessageAt = s.lastMessageAt ∧
        (∀ v, input.title = some v → s2.title = some v) ∧
        (input.title = none → s2.title = s.title) ∧
        (∀ v, input.contextSummary = some v → s2.contextSummary = some v) ∧
        (input.contextSummary = none → s2.contextSummary = s.contextSummary) ∧
        (∀ b, input.isPinned = some b → s2.isPinned = b) ∧
        (input.isPinned = none → s2.isPinned = s.isPinned) ∧
        (∀ b, input.isArchived = some b → s2.isArchived = b) ∧
        (input.isArchived = none → s2.isArchived = s.isArchived)) := by
  constructor
  · intro input c hf hown
    have hf' : (db.characters.filter (fun x => x.id == input.id)).head? =
        some c := hf
    have hid : (c.id == input.id) = true :=
      @head_filter_pred _ db.characters (fun x => x.id == input.id) c hf'
    have hid' : c.id = input.id := by simpa using hid
    have hpres : ∀ x : Character,
        ((if x.id == input.id && x.userId == some u then
            applyCharacterUpdate input now x else x).id == input.id) =
          (x.id == input.id) := by
      intro x
      cases hx : x.id == input.id && x.userId == some u <;>
        simp [hx, applyCharacterUpdate]
    have hfind2 : findCharacter
        { db with characters := db.characters.map (fun x =>
            if x.id == input.id && x.userId == some u then
              applyCharacterUpdate input now x else x) } input.id =
        some (applyCharacterUpdate input now c) := by
      unfold findCharacter
      rw [head_filter_map_pres _ _ _ hpres, hf']
      simp [hid', hown]
    refine ⟨_, applyCharacterUpdate input now c, ?_, hfind2,
      rfl, rfl, rfl, rfl, rfl,
      fun v h => by simp [applyCharacterUpdate, h],
      fun h => by simp [applyCharacterUpdate, h],
      fun v h => by simp [applyCharacterUpdate, updOpt, h],
      fun h => by simp [applyCharacterUpdate, updOpt, h],
      fun v h => by simp [applyCharacterUpdate, updOpt, h],
      fun h => by simp [applyCharacterUpdate, updOpt, h],
      fun v h => by simp [applyCharacterUpdate, updOpt, h],
      fun h => by simp [applyCharacterUpdate, updOpt, h],
      fun v h => by simp [applyCharacterUpdate, updOpt, h],
      fun h => by simp [applyCharacterUpdate, updOpt, h],
      fun v h => by simp [applyCharacterUpdate, updOpt, h],
      fun h => by simp [applyCharacterUpdate, updOpt, h],
      fun v h => by simp [applyCharacterUpdate, updOpt, h],
      fun h => by simp [applyCharacterUpdate, updOpt, h],
      fun v h => by simp [applyCharacterUpdate, updOpt, h],
      fun h => by simp [applyCharacterUpdate, updOpt, h],
      fun b h => by simp [applyCharacterUpdate, h],
      fun h => by simp [applyCharacterUpdate, h]⟩
    simp [updateCharacter, requireUser, hf, hown]
  · intro input s hf hown
    have hf' : (db.sessions.filter (fun x => x.id == input.id)).head? =
        some s := hf
    have hid : (s.id == input.id) = true :=
      @head_filter_pred _ db.sessions (fun x => x.id == input.id) s hf'
    have hid' : s.id = input.id := by simpa using hid
    have hpres : ∀ x : ChatSession,
        ((if x.id == input.id && x.userId == u then
            applySessionUpdate input now x else x).id == input.id) =
          (x.id == input.id) := by
      intro x
      cases hx : x.id == input.id && x.userId == u <;>
        simp [hx, applySessionUpdate]
    have hfind2 : findSession
        { db with sessions := db.sessions.map (fun x =>
            if x.id == input.id && x.userId == u then
              applySessionUpdate input now x else x) } input.id =
        some (applySessionUpdate input now s) := by
      unfold findSession
      rw [head_filter_map_pres _ _ _ hpres, hf']
      simp [hid', hown]
    refine ⟨_, applySessionUpdate input now s, ?_, hfind2,
      rfl, rfl, rfl, rfl, rfl, rfl,
      fun v h => by simp [applySessionUpdate, updOpt, h],
      fun h => by simp [applySessionUpdate, updOpt, h],
      fun v h => by simp [applySessionUpdate, updOpt, h],
      fun h => by simp [applySessionUpdate, updOpt, h],
      fun b h => by simp [applySessionUpdate, h],
      fun h => by simp [applySessionUpdate, h],
      fun b h => by simp [applySessionUpdate, h],
      fun h => by simp [applySessionUpdate, h]⟩
    simp [updateChatSession, requireUser, hf, hown]

/-- Witness for C6: `alice` renames her private character and flips it
public, leaving its slug, owner and system flag as they were; `bob` pins his
session, leaving its title and owner as they were. -/
theorem update_handlers_frame_witness :
    (∃ db2 c2,
      updateCharacter (some "alice")
          ⟨"char-1", some "Softer Mentor", none, none, none, none, none, none,
            none, some true⟩ 9 sampleDB = (Except.ok "char-1", db2) ∧
        findCharacter db2 "char-1" = some c2 ∧
        c2.updatedAt = 9 ∧ c2.name = "Softer Mentor" ∧
        c2.slug = mentorChar.slug ∧ c2.isPublic = true ∧
        c2.isSystem = mentorChar.isSystem ∧ c2.userId = mentorChar.userId) ∧
    (∃ db2 s2,
      updateChatSession (some "bob") ⟨"sess-1", none, none, some true, none⟩ 9
          sampleDB = (Except.ok "sess-1", db2) ∧
        findSession db2 "sess-1" = some s2 ∧
        s2.updatedAt = 9 ∧ s2.isPinned = true ∧
        s2.title = bobSession.title ∧ s2.userId = bobSession.userId ∧
        s2.lastMessageAt = bobSession.lastMessageAt) := by
  constructor
  · obtain ⟨db2, c2, heq, hfind, hupd, _, huid, hsys, _, hname_s, _, _,
        hslug_n, _, _, _, _, _, _, _, _, _, _, _, _, hpub_s, _⟩ :=
      (update_handlers_frame "alice" 9 sampleDB).1
        ⟨"char-1", some "Softer Mentor", none, none, none, none, none, none,
          none, some true⟩ mentorChar (by decide) (by decide)
    exact ⟨db2, c2, heq, hfind, hupd, hname_s _ rfl, hslug_n rfl,
      hpub_s _ rfl, hsys, huid⟩
  · obtain ⟨db2, s2, heq, hfind, hupd, _, huid, _, _, hlma, _, ht_n, _, _,
        hp_s, _, _, _⟩ :=
      (update_handlers_frame "bob" 9 sampleDB).2
        ⟨"sess-1", none, none, some true, none⟩ bobSession (by decide)
        (by decide)
    exact ⟨db2, s2, heq, hfind, hupd, hp_s _ rfl, ht_n rfl, huid, hlma⟩

/-- A provided-or-kept optional column is non-null whenever the previous
value was non-null. -/
theorem updOpt_isSome {α : Type} (a b : Option α) (h : b.isSome = true) :
    (updOpt a b).isSome = true := by
  cases a <;> simp [updOpt, h]

/-- The character table after `updateCharacter` is either unchanged (error
paths) or the row-wise partial update for the authenticated caller. -/
theorem updateCharacter_state (ctx : Option String)
    (input : UpdateCharacterInput) (now : Nat) (db : DB) :
    (updateCharacter ctx input now db).2.characters = db.characters ∨
    ∃ u, ctx = some u ∧
      (updateCharacter ctx input now db).2.characters =
        db.characters.map (fun x =>
          if x.id == input.id && x.userId == some u then
            applyCharacterUpdate input now x
          else x) := by
  rcases ctx with _ | u
  · exact Or.inl rfl
  · cases hf : findCharacter db input.id with
    | none => exact Or.inl (by simp [updateCharacter, requireUser, hf])
    | some ch =>
      by_cases hne : ch.userId = some u
      · refine Or.inr ⟨u, rfl, ?_⟩
        simp [updateCharacter, requireUser, hf, hne]
      · exact Or.inl (by simp [updateCharacter, requireUser, hf, hne])

/-- The session table after `updateChatSession` is either unchanged (error
paths) or the row-wise partial update for the authenticated caller. -/
theorem updateChatSession_state (ctx : Option String)
    (input : UpdateChatSessionInput) (now : Nat) (db : DB) :
    (updateChatSession ctx input now db).2.sessions = db.sessions ∨
    ∃ u, ctx = some u ∧
      (updateChatSession ctx input now db).2.sessions =
        db.sessions.map (fun x =>
          if x.id == input.id && x.userId == u then
            applySessionUpdate input now x
          else x) := by
  rcases ctx with _ | u
  · exact Or.inl rfl
  · cases hf : findSession db input.id with
    | none => exact Or.inl (by simp [updateChatSession, requireUser, hf])
    | some ss =>
      by_cases hne : ss.userId = u
      · refine Or.inr ⟨u, rfl, ?_⟩
        simp [updateChatSession, requireUser, hf, hne]
      · exact Or.inl (by simp [updateChatSession, requireUser, hf, hne])

/-- **C10.** Neither `updateCharacter` nor `updateChatSession` can clear an
optional field: whatever the call's context and input, a row whose optional
column (slug, descriptions, system prompt, speaking style, domain, avatar,
title, context summary) holds a non-null value before the call still holds a
non-null value after it — absent input fields leave the stored value
untouched and provided input fields carry non-null values. -/
theorem optionalFields_never_cleared (ctx : Option String) (db : DB) :
    (∀ (input : UpdateCharacterInput) (now i : Nat) c c2,
      db.characters[i]? = some c →
      (updateCharacter ctx input now db).2.characters[i]? = some c2 →
      (c.slug.isSome = true → c2.slug.isSome = true) ∧
      (c.shortDescription.isSome = true → c2.shortDescription.isSome = true) ∧
      (c.fullDescription.isSome = true → c2.fullDescription.isSome = true) ∧
      (c.systemPrompt.isSome = true → c2.systemPrompt.isSome = true) ∧
      (c.speakingStyle.isSome = true → c2.speakingStyle.isSome = true) ∧
      (c.domain.isSome = true → c2.domain.isSome = true) ∧
      (c.avatarUrl.isSome = true → c2.avatarUrl.isSome = true)) ∧
    (∀ (input : UpdateChatSessionInput) (now i : Nat) s s2,
      db.sessions[i]? = some s →
      (updateChatSession ctx input now db).2.sessions[i]? = some s2 →
      (s.title.isSome = true → s2.title.isSome = true) ∧
      (s.contextSummary.isSome = true → s2.contextSummary.isSome = true)) := by
  constructor
  · intro input now i c c2 hc hc2
    rcases updateCharacter_state ctx input now db with hsh | ⟨u, _, hsh⟩
    · rw [hsh, hc] at hc2
      injection hc2 with h
      subst h
      exact ⟨id, id, id, id, id, id, id⟩
    · rw [hsh, List.getElem?_map, hc, Option.map_some'] at hc2
      injection hc2 with h
      cases hcond : c.id == input.id && c.userId == some u <;>
          rw [hcond] at h
      · rw [if_neg (by simp)] at h
        subst h
        exact ⟨id, id, id, id, id, id, id⟩
      · rw [if_pos rfl] at h
        subst h
        exact ⟨updOpt_isSome _ _, updOpt_isSome _ _, updOpt_isSome _ _,
          updOpt_isSome _ _, updOpt_isSome _ _, updOpt_isSome _ _,
          updOpt_isSome _ _⟩
  · intro input now i s s2 hs hs2
    rcases updateChatSession_state ctx input now db with hsh | ⟨u, _, hsh⟩
    · rw [hsh, hs] at hs2
      injection hs2 with h
      subst h
      exact ⟨id, id⟩
    · rw [hsh, List.getElem?_map, hs, Option.map_some'] at hs2
      injection hs2 with h
      cases hcond : s.id == input.id && s.userId == u <;>
          rw [hcond] at h
      · rw [if_neg (by simp)] at h
        subst h
        exact ⟨id, id⟩
      · rw [if_pos rfl] at h
        subst h
        exact ⟨updOpt_isSome _ _, updOpt_isSome _ _⟩

/-- Witness for C10: on the sample store, `alice` updating her character
without providing a slug leaves the slug non-null, and `bob` updating his
session without providing a title leaves the title and context summary
non-null. -/
theorem optionalFields_never_cleared_witness :
    ((mentorChar.slug.isSome = true →
        ({ mentorChar with updatedAt := 9 } : Character).slug.isSome = true) ∧
      (mentorChar.shortDescription.isSome = true →
        ({ mentorChar with updatedAt := 9 } :
          Character).shortDescription.isSome = true) ∧
      (mentorChar.fullDescription.isSome = true →
        ({ mentorChar with updatedAt := 9 } :
          Character).fullDescription.isSome = true) ∧
      (mentorChar.systemPrompt.isSome = true →
        ({ mentorChar with updatedAt := 9 } :
          Character).systemPrompt.isSome = true) ∧
      (mentorChar.speakingStyle.isSome = true →
        ({ mentorChar with updatedAt := 9 } :
          Character).speakingStyle.isSome = true) ∧
      (mentorChar.domain.isSome = true →
        ({ mentorChar with updatedAt := 9 } : Character).domain.isSome =
          true) ∧
      (mentorChar.avatarUrl.isSome = true →
        ({ mentorChar with updatedAt := 9 } : Character).avatarUrl.isSome =
          true)) ∧
    ((bobSession.title.isSome = true →
        ({ bobSession with updatedAt := 9, isPinned := true } :
          ChatSession).title.isSome = true) ∧
      (bobSession.contextSummary.isSome = true →
        ({ bobSession with updatedAt := 9, isPinned := true } :
          ChatSession).contextSummary.isSome = true)) :=
  ⟨(optionalFields_never_cleared (some "alice") sampleDB).1
      ⟨"char-1", none, none, none, none, none, none, none, none, none⟩ 9 0
      mentorChar { mentorChar with updatedAt := 9 } (by decide) (by decide),
    (optionalFields_never_cleared (some "bob") sampleDB).2
      ⟨"sess-1", none, none, some true, none⟩ 9 0 bobSession
      { bobSession with updatedAt := 9, isPinned := true } (by decide)
      (by decide)⟩

end AiCharacterChat
